import Mathlib

/-!
Verification of the avatar backend service (`app/backend/avatar_service.py`).

The service keeps an in-memory registry of session records keyed by a
connection identifier, issues speech-service and ICE tokens, and exposes
three JSON handlers (connect, speak, disconnect).  We embed the data model
and each handler as a pure Lean function; external effects (`uuid.uuid4()`,
`datetime.utcnow()`, the speech SDK token fetch) become explicit parameters.
Timestamps are natural numbers of seconds.
-/

namespace AvatarService

/-- Environment variables read by `AvatarService.__init__` and
`get_ice_token` (`os.environ.get(...)`). -/
structure Env where
  speech_key : Option String
  speech_region_env : Option String
  speech_private_endpoint : Option String
  ice_token_secret_env : Option String
deriving DecidableEq, Repr

/-- `self.speech_region = os.environ.get("SPEECH_REGION", "westus2")`. -/
def speechRegion (env : Env) : String :=
  env.speech_region_env.getD "westus2"

/-- `secret = os.environ.get("ICE_TOKEN_SECRET", "avatar-service-secret")`. -/
def iceTokenSecret (env : Env) : String :=
  env.ice_token_secret_env.getD "avatar-service-secret"

/-- Result of `get_speech_token`: `{'token': ..., 'region': ..., 'expires_in': 3600}`. -/
structure SpeechTokenResult where
  token : String
  region : String
  expires_in : Nat
deriving DecidableEq, Repr

/-- `get_speech_token`.  The speech SDK call
`speech_config.get_property(speechsdk.PropertyId.SpeechServiceAuthorization_Token)`
is an external effect; its observed value enters as the `auth_token`
parameter.  On success the function packages the raw token with the
configured region and a fixed 3600-second window. -/
def get_speech_token (env : Env) (auth_token : String) : SpeechTokenResult :=
  { token := auth_token
  , region := speechRegion env
  , expires_in := 3600 }

/-- The claims of the `token_data` dict built by `get_ice_token`. -/
structure IceTokenData where
  iss : String
  sub : String
  exp : Nat
  iat : Nat
deriving DecidableEq, Repr

/-- One entry of the static `ice_servers` list returned by `get_ice_token`. -/
structure IceServer where
  urls : List String
  username : String
  credential : String
deriving DecidableEq, Repr

/-- `get_ice_token`.  The two `datetime.utcnow()` calls are separate clock
reads: `t1` is the reading observed on the `exp` line
(`datetime.utcnow() + timedelta(hours=1)`), `t2` the reading observed on the
`iat` line; `sub` is the generated `uuid.uuid4()` string.  The JWT encoding
step keeps the claims intact, so we expose the claim set together with the
static ICE server list. -/
def get_ice_token (t1 t2 : Nat) (sub : String) : IceTokenData × List IceServer :=
  ( { iss := "avatar-service"
    , sub := sub
    , exp := t1 + 3600
    , iat := t2 }
  , [ { urls := ["stun:stun.l.google.com:19302"]
      , username := ""
      , credential := "" } ] )

/-- One record of `self.active_connections` (the dict value built by
`handle_avatar_connect`). -/
structure SessionRecord where
  character : String
  style : String
  background : String
  created_at : Nat
  speaking : Bool
deriving DecidableEq, Repr

/-- The in-memory registry `self.active_connections`, as a partial map from
connection identifiers to records. -/
abbrev Registry := String → Option SessionRecord

/-- `self.active_connections = {}` in `__init__`. -/
def emptyRegistry : Registry := fun _ => none

/-- Parsed JSON body of a connect request; each field is `none` when the
key is absent (read via `data.get(key, default)`). -/
structure ConnectRequest where
  character : Option String
  style : Option String
  background : Option String
deriving DecidableEq, Repr

/-- The JSON body of the 200 response of `handle_avatar_connect`
(`web.json_response` defaults to status 200). -/
structure ConnectResponse where
  status : Nat
  connection_id : String
  character : String
  style : String
  background : String
  body_status : String
deriving DecidableEq, Repr

/-- `handle_avatar_connect`.  `connection_id` is the freshly generated
`uuid.uuid4()` string and `now` the `datetime.utcnow()` reading, both
external effects passed as parameters.  Defaults are applied per
`data.get('character', 'lisa')` etc.; the record is stored and the resolved
values echoed. -/
def handle_avatar_connect (reg : Registry) (req : ConnectRequest)
    (connection_id : String) (now : Nat) : Registry × ConnectResponse :=
  let character := req.character.getD "lisa"
  let style := req.style.getD "casual-sitting"
  let background := req.background.getD "#FFFFFF"
  let record : SessionRecord :=
    { character := character
    , style := style
    , background := background
    , created_at := now
    , speaking := false }
  ( fun k => if k = connection_id then some record else reg k
  , { status := 200
    , connection_id := connection_id
    , character := character
    , style := style
    , background := background
    , body_status := "connected" } )

/-- Parsed JSON body of a speak request: `connection_id = data.get('connection_id')`
(no default), `text = data.get('text', '')`, `voice = data.get('voice',
'en-US-AriaNeural')`. -/
structure SpeakRequest where
  connection_id : Option String
  text : Option String
  voice : Option String
deriving DecidableEq, Repr

/-- Outcome of `handle_avatar_speak`: either an error response
`web.json_response({'error': msg}, status=s)` or the 200 success body. -/
inductive SpeakResult where
  | errorResp (status : Nat) (error : String) : SpeakResult
  | speaking (connection_id : String) (text : String) (voice : String) : SpeakResult
deriving DecidableEq, Repr

/-- HTTP status of a speak outcome (success responses default to 200). -/
def SpeakResult.statusCode : SpeakResult → Nat
  | .errorResp s _ => s
  | .speaking _ _ _ => 200

/-- The `voice` field of a successful speak response body, if any. -/
def SpeakResult.voiceOf : SpeakResult → Option String
  | .errorResp _ _ => none
  | .speaking _ _ v => some v

/-- Python `str.isspace()` on one character: the characters `str.strip()`
removes.  These are `\t \n \v \f \r` (0x09-0x0D), the file/group/record/unit
separators 0x1C-0x1F, space, NEL 0x85, NBSP 0xA0, and the Unicode space
characters 0x1680, 0x2000-0x200A, 0x2028, 0x2029, 0x202F, 0x205F, 0x3000. -/
def pyIsSpace (c : Char) : Bool :=
  let n := c.toNat
  (9 ≤ n && n ≤ 13) || (28 ≤ n && n ≤ 32) ||
  n == 0x85 || n == 0xA0 || n == 0x1680 ||
  (0x2000 ≤ n && n ≤ 0x200A) ||
  n == 0x2028 || n == 0x2029 || n == 0x202F || n == 0x205F || n == 0x3000

/-- Python `str.strip()`: drop whitespace (per `pyIsSpace`) from both ends.
Only its emptiness is observed by the source (`if not text.strip()`). -/
def pyStrip (s : String) : String :=
  String.mk (((s.toList.dropWhile pyIsSpace).reverse.dropWhile
      pyIsSpace).reverse)

/-- `handle_avatar_speak`.  The guard
`if not connection_id or connection_id not in self.active_connections`
rejects an absent, empty or unknown identifier with 400; `if not text.strip()`
rejects whitespace-only text with 400; otherwise the record's `speaking`
flag is set and the echoed body returned. -/
def handle_avatar_speak (reg : Registry) (req : SpeakRequest) :
    Registry × SpeakResult :=
  let text := req.text.getD ""
  let voice := req.voice.getD "en-US-AriaNeural"
  match req.connection_id with
  | none => (reg, .errorResp 400 "Invalid connection")
  | some cid =>
      if cid.isEmpty then (reg, .errorResp 400 "Invalid connection")
      else if (reg cid).isNone then (reg, .errorResp 400 "Invalid connection")
      else if (pyStrip text).isEmpty then (reg, .errorResp 400 "No text provided")
      else
        ( fun k => if k = cid then
              (reg k).map (fun r => { r with speaking := true })
            else reg k
        , .speaking cid text voice )

/-- Parsed JSON body of a disconnect request. -/
structure DisconnectRequest where
  connection_id : Option String
deriving DecidableEq, Repr

/-- Outcome of `handle_avatar_disconnect`: `{'status': 'disconnected'}` with
status 200, or `{'error': 'Connection not found'}` with status 404. -/
inductive DisconnectResult where
  | disconnected : DisconnectResult
  | notFound : DisconnectResult
deriving DecidableEq, Repr

/-- HTTP status of a disconnect outcome. -/
def DisconnectResult.statusCode : DisconnectResult → Nat
  | .disconnected => 200
  | .notFound => 404

/-- The `error` field of a disconnect response body, if any. -/
def DisconnectResult.errorOf : DisconnectResult → Option String
  | .disconnected => none
  | .notFound => some "Connection not found"

/-- `handle_avatar_disconnect`.  The guard
`if connection_id and connection_id in self.active_connections` deletes the
record and answers 200; every other case (absent key, falsy value, unknown
identifier) answers 404. -/
def handle_avatar_disconnect (reg : Registry) (req : DisconnectRequest) :
    Registry × DisconnectResult :=
  match req.connection_id with
  | none => (reg, .notFound)
  | some cid =>
      if cid.isEmpty then (reg, .notFound)
      else if (reg cid).isSome then
        (fun k => if k = cid then none else reg k, .disconnected)
      else (reg, .notFound)

/-! ### Helper lemmas -/

/-- If every character of `s` is Python whitespace, `s.strip()` is empty. -/
lemma pyStrip_isEmpty_of_all_whitespace (s : String)
    (h : s.toList.all pyIsSpace = true) : (pyStrip s).isEmpty = true := by
  have h' : ∀ c ∈ s.toList, pyIsSpace c = true := by
    simpa [List.all_eq_true] using h
  have h1 : s.toList.dropWhile pyIsSpace = [] :=
    List.dropWhile_eq_nil_iff.mpr h'
  unfold pyStrip
  rw [h1]
  rfl

/-- Shape of `handle_avatar_speak` on the success path: known nonempty
identifier, record present, text not whitespace-only. -/
lemma speak_success_eq (reg : Registry) (req : SpeakRequest) (cid : String)
    (r : SessionRecord)
    (h1 : req.connection_id = some cid) (h2 : cid.isEmpty = false)
    (h3 : reg cid = some r)
    (h4 : (pyStrip (req.text.getD "")).isEmpty = false) :
    handle_avatar_speak reg req =
      ( fun k => if k = cid then (reg k).map (fun s => { s with speaking := true })
          else reg k
      , .speaking cid (req.text.getD "") (req.voice.getD "en-US-AriaNeural") ) := by
  unfold handle_avatar_speak
  rw [h1]
  simp [h2, h3, h4]

/-- A sample session record, as stored after a default connect. -/
def sampleRecord : SessionRecord :=
  { character := "lisa", style := "casual-sitting", background := "#FFFFFF"
  , created_at := 0, speaking := false }

/-- A sample registry holding exactly one session. -/
def sampleRegistry : Registry :=
  fun k => if k = "conn-1" then some sampleRecord else none

/-! ### Claims about token issuance -/

/-- C1 counterexample: the two `datetime.utcnow()` calls in `get_ice_token`
are separate clock reads; if the first reads 0 and the second reads 1, the
stored expiry is 3600 while issued-at + 3600 = 3601, so `exp = iat + 3600`
fails for that pair of readings. -/
theorem iceToken_exp_iat_counterexample :
    ¬ ((get_ice_token 0 1 "s").1.exp = (get_ice_token 0 1 "s").1.iat + 3600) := by
  decide

/-- C1 (amended): whenever the two `datetime.utcnow()` calls in
`get_ice_token` observe the same clock reading, the issued token's expiry
equals its issued-at timestamp plus exactly 3600 seconds; in general the
expiry equals the first reading plus 3600. -/
theorem iceToken_exp_eq_iat_add_hour_of_eq_readings (t1 t2 : Nat) (sub : String)
    (h : t1 = t2) :
    (get_ice_token t1 t2 sub).1.exp = (get_ice_token t1 t2 sub).1.iat + 3600 ∧
    (get_ice_token t1 t2 sub).1.exp = t1 + 3600 := by
  subst h
  exact ⟨rfl, rfl⟩

/-- Witness for C1 (amended) at equal readings 5, 5. -/
theorem iceToken_exp_eq_iat_add_hour_of_eq_readings_witness :
    (5 : Nat) = 5 ∧
    (get_ice_token 5 5 "subj").1.exp = (get_ice_token 5 5 "subj").1.iat + 3600 :=
  ⟨rfl, (iceToken_exp_eq_iat_add_hour_of_eq_readings 5 5 "subj" rfl).1⟩

/-- C6: on every successful call, `get_speech_token` returns exactly the raw
token obtained from the speech authority, the configured region (defaulting
to "westus2" when SPEECH_REGION is unset), and `expires_in = 3600`. -/
theorem speech_token_shape (env : Env) (auth_token : String) :
    get_speech_token env auth_token =
      { token := auth_token
      , region := env.speech_region_env.getD "westus2"
      , expires_in := 3600 } := rfl

/-! ### Claims about the handlers -/

/-- C2: for every connect request that parses, `handle_avatar_connect`
answers 200 with the freshly generated connection identifier, status
"connected", and the resolved configuration, defaulting absent fields to
"lisa", "casual-sitting" and "#FFFFFF" and echoing exactly the resolved
values. -/
theorem connect_succeeds_with_resolved_config (reg : Registry)
    (req : ConnectRequest) (connection_id : String) (now : Nat) :
    (handle_avatar_connect reg req connection_id now).2 =
      { status := 200
      , connection_id := connection_id
      , character := req.character.getD "lisa"
      , style := req.style.getD "casual-sitting"
      , background := req.background.getD "#FFFFFF"
      , body_status := "connected" } := rfl

/-- C3: a speak request whose connection identifier is missing, empty, or
absent from the registry is answered with the 400 "Invalid connection"
error, whatever the text field contains, and the registry is unchanged. -/
theorem speak_unknown_connection_yields_400 (reg : Registry) (req : SpeakRequest)
    (h : req.connection_id = none ∨
      ∃ cid, req.connection_id = some cid ∧ (cid = "" ∨ reg cid = none)) :
    handle_avatar_speak reg req = (reg, .errorResp 400 "Invalid connection") ∧
    SpeakResult.statusCode (.errorResp 400 "Invalid connection") = 400 := by
  refine ⟨?_, rfl⟩
  unfold handle_avatar_speak
  rcases h with h | ⟨cid, h, hc⟩
  · rw [h]
  · rw [h]
    rcases hc with rfl | hc
    · rfl
    · by_cases he : cid.isEmpty
      · simp [he]
      · simp [he, hc]

/-- Witness for C3 on the empty registry with an unknown identifier. -/
theorem speak_unknown_connection_yields_400_witness :
    ((some "x" : Option String) = none ∨
      ∃ cid, (some "x" : Option String) = some cid ∧
        (cid = "" ∨ emptyRegistry cid = none)) ∧
    handle_avatar_speak emptyRegistry ⟨some "x", some "hello", none⟩
      = (emptyRegistry, .errorResp 400 "Invalid connection") :=
  ⟨Or.inr ⟨"x", rfl, Or.inr rfl⟩,
   (speak_unknown_connection_yields_400 emptyRegistry
     ⟨some "x", some "hello", none⟩ (Or.inr ⟨"x", rfl, Or.inr rfl⟩)).1⟩

/-- C4: a speak request on an identifier present in the registry whose text
is empty or whitespace-only is answered 400, the registry is unchanged, and
(for the nonempty identifiers the service generates) the error is the
"No text provided" input error; a record whose speaking flag was false
still has it false. -/
theorem speak_whitespace_text_yields_400 (reg : Registry) (req : SpeakRequest)
    (cid : String) (r : SessionRecord)
    (h1 : req.connection_id = some cid)
    (h2 : reg cid = some r)
    (h3 : (req.text.getD "").toList.all pyIsSpace = true) :
    (handle_avatar_speak reg req).1 = reg ∧
    SpeakResult.statusCode (handle_avatar_speak reg req).2 = 400 ∧
    (cid.isEmpty = false →
      (handle_avatar_speak reg req).2 = .errorResp 400 "No text provided") ∧
    (r.speaking = false → ∃ r', (handle_avatar_speak reg req).1 cid = some r' ∧
      r'.speaking = false) := by
  have hmain : handle_avatar_speak reg req =
      (reg, if cid.isEmpty then SpeakResult.errorResp 400 "Invalid connection"
        else SpeakResult.errorResp 400 "No text provided") := by
    unfold handle_avatar_speak
    rw [h1]
    by_cases he : cid.isEmpty
    · simp [he]
    · simp [he, h2, pyStrip_isEmpty_of_all_whitespace _ h3]
  refine ⟨by rw [hmain], ?_, ?_, ?_⟩
  · rw [hmain]
    by_cases he : cid.isEmpty <;> simp [he, SpeakResult.statusCode]
  · intro hf
    rw [hmain, hf]
    rfl
  · intro hsp
    exact ⟨r, by rw [hmain]; exact h2, hsp⟩

/-- Witness for C4: whitespace text on a live connection. -/
theorem speak_whitespace_text_yields_400_witness :
    sampleRegistry "conn-1" = some sampleRecord ∧
    (handle_avatar_speak sampleRegistry ⟨some "conn-1", some "\x0C\xA0 ", none⟩).1
      = sampleRegistry ∧
    SpeakResult.statusCode
      (handle_avatar_speak sampleRegistry ⟨some "conn-1", some "\x0C\xA0 ", none⟩).2 = 400 ∧
    (handle_avatar_speak sampleRegistry ⟨some "conn-1", some "\x0C\xA0 ", none⟩).2
      = .errorResp 400 "No text provided" ∧
    ∃ r', (handle_avatar_speak sampleRegistry
        ⟨some "conn-1", some "\x0C\xA0 ", none⟩).1 "conn-1" = some r' ∧
      r'.speaking = false := by
  have h := speak_whitespace_text_yields_400 sampleRegistry
    ⟨some "conn-1", some "\x0C\xA0 ", none⟩ "conn-1" sampleRecord rfl rfl rfl
  exact ⟨rfl, h.1, h.2.1, h.2.2.1 rfl, h.2.2.2 rfl⟩

/-- C5: disconnecting a live identifier succeeds (200, "disconnected"), and
immediately afterwards a second disconnect on it answers 404 and a speak on
it answers the 400 "Invalid connection" error. -/
theorem disconnect_removal_immediately_effective (reg : Registry) (cid : String)
    (h1 : cid.isEmpty = false) (h2 : (reg cid).isSome = true) :
    (handle_avatar_disconnect reg ⟨some cid⟩).2 = .disconnected ∧
    DisconnectResult.statusCode
      (handle_avatar_disconnect reg ⟨some cid⟩).2 = 200 ∧
    handle_avatar_disconnect
        (handle_avatar_disconnect reg ⟨some cid⟩).1 ⟨some cid⟩
      = ((handle_avatar_disconnect reg ⟨some cid⟩).1, .notFound) ∧
    DisconnectResult.statusCode DisconnectResult.notFound = 404 ∧
    ∀ req : SpeakRequest, req.connection_id = some cid →
      handle_avatar_speak (handle_avatar_disconnect reg ⟨some cid⟩).1 req
        = ((handle_avatar_disconnect reg ⟨some cid⟩).1,
           .errorResp 400 "Invalid connection") := by
  have hfirst : handle_avatar_disconnect reg ⟨some cid⟩
      = (fun k => if k = cid then none else reg k, .disconnected) := by
    unfold handle_avatar_disconnect
    simp [h1, h2]
  refine ⟨by rw [hfirst], by rw [hfirst]; rfl, ?_, rfl, ?_⟩
  · rw [hfirst]
    unfold handle_avatar_disconnect
    simp [h1]
  · intro req hr
    rw [hfirst]
    unfold handle_avatar_speak
    rw [hr]
    simp [h1]

/-- Witness for C5 on the one-session registry. -/
theorem disconnect_removal_immediately_effective_witness :
    ("conn-1".isEmpty = false) ∧ ((sampleRegistry "conn-1").isSome = true) ∧
    (handle_avatar_disconnect sampleRegistry ⟨some "conn-1"⟩).2
      = .disconnected ∧
    handle_avatar_disconnect
        (handle_avatar_disconnect sampleRegistry ⟨some "conn-1"⟩).1
        ⟨some "conn-1"⟩
      = ((handle_avatar_disconnect sampleRegistry ⟨some "conn-1"⟩).1,
         .notFound) ∧
    handle_avatar_speak
        (handle_avatar_disconnect sampleRegistry ⟨some "conn-1"⟩).1
        ⟨some "conn-1", some "hello", none⟩
      = ((handle_avatar_disconnect sampleRegistry ⟨some "conn-1"⟩).1,
         .errorResp 400 "Invalid connection") := by
  have h := disconnect_removal_immediately_effective sampleRegistry "conn-1" rfl rfl
  exact ⟨rfl, rfl, h.1, h.2.2.1, h.2.2.2.2 ⟨some "conn-1", some "hello", none⟩ rfl⟩

/-- C7: a successful speak request only flips the target record's speaking
flag to true; its display fields and creation time are untouched and every
other key of the registry maps to exactly what it mapped to before. -/
theorem speak_success_frame (reg : Registry) (req : SpeakRequest) (cid : String)
    (r : SessionRecord)
    (h1 : req.connection_id = some cid) (h2 : cid.isEmpty = false)
    (h3 : reg cid = some r)
    (h4 : (pyStrip (req.text.getD "")).isEmpty = false) :
    (handle_avatar_speak reg req).1 cid = some
      { character := r.character, style := r.style, background := r.background
      , created_at := r.created_at, speaking := true } ∧
    ∀ k, k ≠ cid → (handle_avatar_speak reg req).1 k = reg k := by
  rw [speak_success_eq reg req cid r h1 h2 h3 h4]
  constructor
  · simp [h3]
  · intro k hk
    simp [hk]

/-- Witness for C7: speaking "hello" on the live session flips only its
speaking flag and leaves the absent key "conn-2" absent. -/
theorem speak_success_frame_witness :
    (handle_avatar_speak sampleRegistry ⟨some "conn-1", some "hello", none⟩).1
        "conn-1"
      = some { character := sampleRecord.character, style := sampleRecord.style
             , background := sampleRecord.background
             , created_at := sampleRecord.created_at, speaking := true } ∧
    (handle_avatar_speak sampleRegistry ⟨some "conn-1", some "hello", none⟩).1
        "conn-2"
      = sampleRegistry "conn-2" := by
  have h := speak_success_frame sampleRegistry
    ⟨some "conn-1", some "hello", none⟩ "conn-1" sampleRecord rfl rfl rfl rfl
  exact ⟨h.1, h.2 "conn-2" (by decide)⟩

/-- C9: a successful speak response carries `voice = data.get('voice',
'en-US-AriaNeural')`: the default when the field is omitted, the supplied
value unchanged otherwise. -/
theorem speak_voice_default_and_echo (reg : Registry) (req : SpeakRequest)
    (cid : String) (r : SessionRecord)
    (h1 : req.connection_id = some cid) (h2 : cid.isEmpty = false)
    (h3 : reg cid = some r)
    (h4 : (pyStrip (req.text.getD "")).isEmpty = false) :
    SpeakResult.voiceOf (handle_avatar_speak reg req).2
      = some (req.voice.getD "en-US-AriaNeural") ∧
    (req.voice = none →
      SpeakResult.voiceOf (handle_avatar_speak reg req).2
        = some "en-US-AriaNeural") ∧
    ∀ v, req.voice = some v →
      SpeakResult.voiceOf (handle_avatar_speak reg req).2 = some v := by
  rw [speak_success_eq reg req cid r h1 h2 h3 h4]
  refine ⟨rfl, ?_, ?_⟩
  · intro hv
    simp [SpeakResult.voiceOf, hv]
  · intro v hv
    simp [SpeakResult.voiceOf, hv]

/-- Witness for C9: omitted voice defaults, supplied voice echoes. -/
theorem speak_voice_default_and_echo_witness :
    SpeakResult.voiceOf (handle_avatar_speak sampleRegistry
        ⟨some "conn-1", some "hello", none⟩).2 = some "en-US-AriaNeural" ∧
    SpeakResult.voiceOf (handle_avatar_speak sampleRegistry
        ⟨some "conn-1", some "hello", some "en-GB-LibbyNeural"⟩).2
      = some "en-GB-LibbyNeural" :=
  ⟨(speak_voice_default_and_echo sampleRegistry
      ⟨some "conn-1", some "hello", none⟩ "conn-1" sampleRecord
      rfl rfl rfl rfl).2.1 rfl,
   (speak_voice_default_and_echo sampleRegistry
      ⟨some "conn-1", some "hello", some "en-GB-LibbyNeural"⟩ "conn-1"
      sampleRecord rfl rfl rfl rfl).2.2 "en-GB-LibbyNeural" rfl⟩

/-- C10: a disconnect request with an absent or falsy (empty) connection
identifier is answered with the 404 {"error": "Connection not found"}
response, not a 400, and the registry is unchanged. -/
theorem disconnect_missing_id_yields_404 (reg : Registry)
    (req : DisconnectRequest)
    (h : req.connection_id = none ∨ req.connection_id = some "") :
    handle_avatar_disconnect reg req = (reg, .notFound) ∧
    DisconnectResult.statusCode DisconnectResult.notFound = 404 ∧
    DisconnectResult.errorOf DisconnectResult.notFound
      = some "Connection not found" := by
  refine ⟨?_, rfl, rfl⟩
  unfold handle_avatar_disconnect
  rcases h with h | h
  · rw [h]
  · rw [h]
    rfl

/-- Witness for C10: disconnect with the empty-string identifier. -/
theorem disconnect_missing_id_yields_404_witness :
    ((some "" : Option String) = none ∨ (some "" : Option String) = some "") ∧
    handle_avatar_disconnect emptyRegistry ⟨some ""⟩
      = (emptyRegistry, .notFound) :=
  ⟨Or.inr rfl,
   (disconnect_missing_id_yields_404 emptyRegistry ⟨some ""⟩ (Or.inr rfl)).1⟩

/-! ### C8: registry membership across operation sequences

A run of the service is a sequence of handler invocations against
`self.active_connections`, starting from the empty dict of `__init__`.
Each connect records the identifier `uuid.uuid4()` produced and the clock
reading observed. -/

/-- One handler invocation, with its external inputs recorded. -/
inductive Op where
  | connect (connection_id : String) (req : ConnectRequest) (now : Nat) : Op
  | speak (req : SpeakRequest) : Op
  | disconnect (req : DisconnectRequest) : Op

/-- Registry effect of one handler invocation. -/
def applyOp (reg : Registry) : Op → Registry
  | .connect cid req now => (handle_avatar_connect reg req cid now).1
  | .speak req => (handle_avatar_speak reg req).1
  | .disconnect req => (handle_avatar_disconnect reg req).1

/-- Registry after a sequence of invocations, from the empty registry. -/
def runOps (ops : List Op) : Registry :=
  ops.foldl applyOp emptyRegistry

/-- The operation is a connect whose generated identifier is `k`. -/
def Op.connects : Op → String → Prop
  | .connect cid _ _, k => cid = k
  | _, _ => False

/-- The operation is a disconnect that removes key `k` whenever `k` is
present: its request carries exactly the nonempty identifier `k`. -/
def Op.disconnects : Op → String → Prop
  | .disconnect req, k => req.connection_id = some k ∧ k ≠ ""
  | _, _ => False

/-- The claim's membership condition: some connect in the sequence
generated `k` and no later disconnect targets `k`. -/
def AliveSpec (ops : List Op) (k : String) : Prop :=
  ∃ pre req now post, ops = pre ++ Op.connect k req now :: post ∧
    ∀ op ∈ post, ¬ Op.disconnects op k

/-- A speak invocation never connects a key. -/
lemma not_connects_speak (req : SpeakRequest) (k : String) :
    ¬ Op.connects (.speak req) k := fun h => h

/-- A speak invocation never disconnects a key. -/
lemma not_disconnects_speak (req : SpeakRequest) (k : String) :
    ¬ Op.disconnects (.speak req) k := fun h => h

/-- A disconnect invocation never connects a key. -/
lemma not_connects_disconnect (req : DisconnectRequest) (k : String) :
    ¬ Op.connects (.disconnect req) k := fun h => h

/-- A connect invocation never disconnects a key. -/
lemma not_disconnects_connect (cid : String) (req : ConnectRequest)
    (now : Nat) (k : String) :
    ¬ Op.disconnects (.connect cid req now) k := fun h => h

/-- A connect for a different identifier does not connect `k`. -/
lemma not_connects_connect_of_ne {cid k : String} (req : ConnectRequest)
    (now : Nat) (h : k ≠ cid) :
    ¬ Op.connects (.connect cid req now) k := fun hc => h (Eq.symm hc)

/-- Decomposing `l ++ [y] = pre ++ x :: post`: either `x` is the appended
last element, or the whole of `x :: post` except the final `y` sits in `l`. -/
lemma concat_eq_append_cons {α : Type _} {l pre post : List α} {x y : α}
    (h : l ++ [y] = pre ++ x :: post) :
    (pre = l ∧ x = y ∧ post = []) ∨
    ∃ post', post = post' ++ [y] ∧ l = pre ++ x :: post' := by
  rcases List.eq_nil_or_concat post with hp | ⟨post', z, hp⟩
  · subst hp
    obtain ⟨h1, h2⟩ := List.append_inj' h (by simp)
    injection h2 with h3 _
    exact Or.inl ⟨h1.symm, h3.symm, rfl⟩
  · rw [List.concat_eq_append] at hp
    subst hp
    have h' : l ++ [y] = (pre ++ x :: post') ++ [z] := by
      rw [h]
      simp
    obtain ⟨h1, h2⟩ := List.append_inj' h' (by simp)
    injection h2 with h3 _
    subst h3
    exact Or.inr ⟨post', rfl, h1⟩

/-- No key is alive in the empty sequence. -/
lemma not_aliveSpec_nil (k : String) : ¬ AliveSpec [] k := by
  rintro ⟨pre, req, now, post, heq, -⟩
  cases pre <;> simp_all

/-- Appending a connect for `k` makes `k` alive. -/
lemma aliveSpec_concat_connect_self (l : List Op) (k : String)
    (req : ConnectRequest) (now : Nat) :
    AliveSpec (l ++ [Op.connect k req now]) k :=
  ⟨l, req, now, [], rfl, by simp⟩

/-- Appending an operation that neither connects nor disconnects `k`
preserves aliveness of `k`. -/
lemma aliveSpec_concat_irrelevant {l : List Op} {op : Op} {k : String}
    (h1 : ¬ Op.connects op k) (h2 : ¬ Op.disconnects op k) :
    AliveSpec (l ++ [op]) k ↔ AliveSpec l k := by
  constructor
  · rintro ⟨pre, req, now, post, heq, hpost⟩
    rcases concat_eq_append_cons heq with ⟨hpre, hx, hpost0⟩ | ⟨post', hp, hl⟩
    · exact absurd (show Op.connects op k by rw [← hx]; rfl) h1
    · exact ⟨pre, req, now, post', hl,
        fun o ho => hpost o (by rw [hp]; exact List.mem_append_left _ ho)⟩
  · rintro ⟨pre, req, now, post, heq, hpost⟩
    refine ⟨pre, req, now, post ++ [op], ?_, ?_⟩
    · rw [heq]
      simp
    · intro o ho
      rcases List.mem_append.mp ho with h | h
      · exact hpost o h
      · rw [List.mem_singleton.mp h]
        exact h2

/-- Appending a disconnect that targets `k` kills aliveness of `k`. -/
lemma not_aliveSpec_concat_disconnects {l : List Op} {op : Op} {k : String}
    (h : Op.disconnects op k) : ¬ AliveSpec (l ++ [op]) k := by
  rintro ⟨pre, req, now, post, heq, hpost⟩
  rcases concat_eq_append_cons heq with ⟨hpre, hx, hpost0⟩ | ⟨post', hp, hl⟩
  · rw [← hx] at h
    exact h
  · exact hpost op
      (by rw [hp]; exact List.mem_append_right _ (List.mem_singleton.mpr rfl)) h

/-- Pointwise effect of a connect on the registry. -/
lemma applyOp_connect_apply (reg : Registry) (cid : String)
    (req : ConnectRequest) (now : Nat) (k : String) :
    applyOp reg (.connect cid req now) k
      = if k = cid then
          some { character := req.character.getD "lisa"
               , style := req.style.getD "casual-sitting"
               , background := req.background.getD "#FFFFFF"
               , created_at := now, speaking := false }
        else reg k := rfl

/-- A speak invocation never adds or removes a key. -/
lemma applyOp_speak_isSome (reg : Registry) (req : SpeakRequest) (k : String) :
    (applyOp reg (.speak req) k).isSome = (reg k).isSome := by
  show ((handle_avatar_speak reg req).1 k).isSome = (reg k).isSome
  unfold handle_avatar_speak
  cases req.connection_id with
  | none => rfl
  | some cid =>
    dsimp only
    by_cases he : cid.isEmpty
    · simp [he]
    · by_cases hn : (reg cid).isNone
      · simp [he, hn]
      · by_cases ht : (pyStrip (req.text.getD "")).isEmpty
        · simp [he, hn, ht]
        · simp only [he, hn, ht, Bool.false_eq_true, if_false]
          by_cases hk : k = cid
          · subst hk
            simp only [if_pos rfl]
            cases reg k <;> simp
          · simp [hk]

/-- A disconnect whose request carries the nonempty identifier `k` leaves
`k` absent. -/
lemma applyOp_disconnect_target (reg : Registry) (req : DisconnectRequest)
    (k : String) (h : Op.disconnects (.disconnect req) k) :
    applyOp reg (.disconnect req) k = none := by
  obtain ⟨hc, hk⟩ := h
  show (handle_avatar_disconnect reg req).1 k = none
  unfold handle_avatar_disconnect
  rw [hc]
  have he : k.isEmpty = false := by
    rcases Bool.eq_false_or_eq_true k.isEmpty with h0 | h0
    · exact absurd ((String.isEmpty_iff k).mp h0) hk
    · exact h0
  by_cases hs : (reg k).isSome
  · simp [he, hs]
  · simp only [he, Bool.false_eq_true, if_false, hs]
    exact Option.not_isSome_iff_eq_none.mp hs

/-- A disconnect that does not target `k` leaves `k`'s binding intact. -/
lemma applyOp_disconnect_other (reg : Registry) (req : DisconnectRequest)
    (k : String) (h : ¬ Op.disconnects (.disconnect req) k) :
    applyOp reg (.disconnect req) k = reg k := by
  show (handle_avatar_disconnect reg req).1 k = reg k
  unfold handle_avatar_disconnect
  cases hc : req.connection_id with
  | none => rfl
  | some cid =>
    dsimp only
    by_cases he : cid.isEmpty
    · simp [he]
    · by_cases hs : (reg cid).isSome
      · have hk : k ≠ cid := by
          intro hkc
          subst hkc
          exact h ⟨hc, fun h0 => he (by rw [h0]; rfl)⟩
        simp [he, hs, hk]
      · simp [he, hs]

/-- C8: starting from the empty registry, after any sequence of connect,
speak and disconnect invocations a connection identifier is a key of the
registry exactly when some connect generated it and no later disconnect
targeted it; and every stored record carries all five fields (it is
inserted fully constructed in one step). -/
theorem registry_membership_invariant (ops : List Op) (k : String) :
    ((runOps ops k).isSome = true ↔ AliveSpec ops k) ∧
    (∀ r, runOps ops k = some r →
      ∃ c s b t sp, r = { character := c, style := s, background := b
                        , created_at := t, speaking := sp }) := by
  constructor
  · induction ops using List.reverseRecOn with
    | nil => simp [runOps, emptyRegistry, not_aliveSpec_nil k]
    | append_singleton l op ih =>
      have hrun : runOps (l ++ [op]) = applyOp (runOps l) op :=
        List.foldl_concat applyOp emptyRegistry op l
      rcases op with ⟨cid, creq, now⟩ | creq | creq
      · by_cases hk : k = cid
        · subst hk
          constructor
          · intro _
            exact aliveSpec_concat_connect_self l k creq now
          · intro _
            rw [hrun, applyOp_connect_apply]
            simp
        · rw [hrun, applyOp_connect_apply, if_neg hk,
            aliveSpec_concat_irrelevant (not_connects_connect_of_ne creq now hk)
              (not_disconnects_connect cid creq now k)]
          exact ih
      · rw [hrun, applyOp_speak_isSome,
          aliveSpec_concat_irrelevant (not_connects_speak creq k)
            (not_disconnects_speak creq k)]
        exact ih
      · by_cases hd : Op.disconnects (.disconnect creq) k
        · rw [hrun, applyOp_disconnect_target _ _ _ hd]
          simp [not_aliveSpec_concat_disconnects hd]
        · rw [hrun, applyOp_disconnect_other _ _ _ hd,
            aliveSpec_concat_irrelevant (not_connects_disconnect creq k) hd]
          exact ih
  · intro r _
    exact ⟨r.character, r.style, r.background, r.created_at, r.speaking, rfl⟩

end AvatarService
